import Mathlib

/-!
Verification of the film-grain plugin nodes (src/film_grain.py).

The file shallowly embeds the two invocation classes, `FilmGrainInvocation`
and `MonochromeFilmGrainInvocation`, as pure Lean functions.  Python float
arithmetic in the noise pipeline is modelled by exact rational arithmetic
(structure `Q` below); the pseudo-random generator `np.random.default_rng`
is modelled as a parameter `normal : Nat → Nat → Q` mapping a seed to the
stream of standard-normal draws, and the host entropy source
`get_random_seed` as explicit `entropy` arguments.  Library routines called
by the code (PIL convert, ImageChops.overlay, GaussianBlur, numpy astype)
are modelled from their documented and published behaviour, as noted on
each definition.
-/

namespace FilmGrainNode

/-- Exact rational number, kept as an unnormalised fraction with numerator
and denominator.  Models the Python float values flowing through the noise
pipeline (`127.5`, `amount / 800.0`, normal samples) exactly, without
floating-point rounding.  All constructed values have a positive
denominator. -/
structure Q where
  num : Int
  den : Nat
deriving DecidableEq

/-- Multiplication of exact rationals (no normalisation needed, the value
is only ever inspected through truncation). -/
def Q.mul (a b : Q) : Q := ⟨a.num * b.num, a.den * b.den⟩

/-- Addition of exact rationals. -/
def Q.add (a b : Q) : Q := ⟨a.num * (b.den : Int) + b.num * (a.den : Int), a.den * b.den⟩

/-- Truncation toward zero, as a C cast of a float to an integer type
does.  `Int.tdiv` is truncating division. -/
def Q.trunc (q : Q) : Int := q.num.tdiv (q.den : Int)

/-- Model of numpy `astype("uint8")` applied to a float value: C-style
conversion, truncating toward zero and wrapping modulo 2^8.  `%` on `Int`
is Euclidean, so the result lies in `[0, 256)`. -/
def astypeUint8 (q : Q) : Nat := (Q.trunc q % 256).toNat

/-- One pixel: 8-bit channel values held as naturals.  For mode "RGB" and
mode "L" images the `a` component models the padding byte PIL stores
(always 255); for mode "RGBA" it is the alpha channel.  For mode "L"
images the gray value is replicated in `r`, `g`, `b`. -/
structure Pixel where
  r : Nat
  g : Nat
  b : Nat
  a : Nat
deriving DecidableEq

/-- A PIL image: a mode string, dimensions, and a pixel map.  Only the
values of `px` at coordinates `x < width`, `y < height` are meaningful. -/
structure Img where
  mode : String
  width : Nat
  height : Nat
  px : Nat → Nat → Pixel

/-- Model of PIL `Image.convert("RGB")` as used on line 35 on an RGBA
input: the alpha band is discarded (PIL keeps a padding byte of 255), the
color bands are unchanged. -/
def convertRGB (img : Img) : Img :=
  { img with mode := "RGB", px := fun x y => { img.px x y with a := 255 } }

/-- Model of PIL `Image.convert("RGBA")` as used on line 53 on an RGB
input: the alpha band is created with the value 255 everywhere, the color
bands are unchanged. -/
def convertRGBA (img : Img) : Img :=
  { img with mode := "RGBA", px := fun x y => { img.px x y with a := 255 } }

/-- The byte stored for the i-th raw normal draw, lines 38 to 40 of the
source: `sample * 127.5 * (amount / 800.0)`, then `+ 127.5`, then
`astype("uint8")`.  `127.5` is the exact rational 255 / 2. -/
def noiseByte (samples : Nat → Q) (amount : Nat) (i : Nat) : Nat :=
  astypeUint8 (Q.add (Q.mul (Q.mul (samples i) ⟨255, 2⟩) ⟨(amount : Int), 800⟩) ⟨255, 2⟩)

/-- The color noise image built on lines 38 to 40: an array of shape
(height, width, 3) of independent draws, converted to an RGB image.  The
flat sample index of channel c at pixel (x, y) is `(y * w + x) * 3 + c`,
matching the C-order layout numpy fills. -/
def colorNoiseImage (samples : Nat → Q) (amount w h : Nat) : Img where
  mode := "RGB"
  width := w
  height := h
  px := fun x y =>
    { r := noiseByte samples amount ((y * w + x) * 3)
      g := noiseByte samples amount ((y * w + x) * 3 + 1)
      b := noiseByte samples amount ((y * w + x) * 3 + 2)
      a := 255 }

/-- The monochrome noise image built on lines 80 to 82: an array of shape
(height, width) of draws, converted to a mode "L" image.  The single gray
value is replicated in the three color components of `Pixel`, which is how
this embedding represents "L" images. -/
def monoNoiseImageL (samples : Nat → Q) (amount w h : Nat) : Img where
  mode := "L"
  width := w
  height := h
  px := fun x y =>
    let v := noiseByte samples amount (y * w + x)
    { r := v, g := v, b := v, a := 255 }

/-- Pillow MULDIV255 macro from ImagingUtils.h:
`tmp = a * b + 128; result = ((tmp >> 8) + tmp) >> 8`.  This is the
rounding approximation of division by 255 used by the chop operations. -/
def muldiv255 (a b : Nat) : Nat :=
  let tmp := a * b + 128
  ((tmp >>> 8) + tmp) >>> 8

/-- Per-byte overlay blend, from ImagingOverlay in Pillow Chops.c:
`(in1 < 128) ? MULDIV255(2 * in1, in2) : 255 - MULDIV255(2 * (255 - in1), 255 - in2)`. -/
def overlayByte (base blend : Nat) : Nat :=
  if base < 128 then muldiv255 (2 * base) blend
  else 255 - muldiv255 (2 * (255 - base)) (255 - blend)

/-- Overlay applied componentwise to one pixel (the chop loop runs over
every byte of the line, including the padding/alpha byte). -/
def overlayPixel (p q : Pixel) : Pixel :=
  { r := overlayByte p.r q.r
    g := overlayByte p.g q.g
    b := overlayByte p.b q.b
    a := overlayByte p.a q.a }

/-- Pixel storage type of a Pillow image mode, from the mode table in
Storage.c: "I" stores 32-bit integers and "F" 32-bit floats; every other
standard mode stores 8-bit bands. -/
def pixType (mode : String) : String :=
  if mode = "I" then "int32" else if mode = "F" then "float32" else "uint8"

/-- Number of bands of a Pillow image mode, from the mode table in
Storage.c: RGB, YCbCr, HSV and LAB have 3 bands; RGBA, RGBa, RGBX and
CMYK have 4; LA, La and PA have 2; the remaining standard modes ("1",
"L", "P", "I", "F") have 1. -/
def bands (mode : String) : Nat :=
  if mode = "RGB" ∨ mode = "YCbCr" ∨ mode = "HSV" ∨ mode = "LAB" then 3
  else if mode = "RGBA" ∨ mode = "RGBa" ∨ mode = "RGBX" ∨ mode = "CMYK" then 4
  else if mode = "LA" ∨ mode = "La" ∨ mode = "PA" then 2
  else 1

/-- Model of PIL `ImageChops.overlay(image1, image2)`: the chop create()
in Chops.c (called with a NULL mode by ImagingOverlay) raises "image has
wrong mode" when the first image is not 8-bit, raises the mismatch error
"images do not match" when the two images differ in pixel type or band
count, and otherwise combines the images bytewise into an image with the
mode of the first one and the minimum of the two sizes.  Mode strings are
never compared, so any 3-band 8-bit image blends with an RGB one. -/
def overlay (im1 im2 : Img) : Except String Img :=
  if pixType im1.mode = "uint8" then
    if pixType im1.mode = pixType im2.mode ∧ bands im1.mode = bands im2.mode then
      .ok (Img.mk im1.mode (min im1.width im2.width) (min im1.height im2.height)
        (fun x y => overlayPixel (im1.px x y) (im2.px x y)))
    else
      .error "images do not match"
  else
    .error "image has wrong mode"

/-- Window half-width used by the blur model: the ceiling of the (non
negative) rational radius. -/
def boxRadius (r : Q) : Nat := (r.num.toNat + r.den - 1) / r.den

/-- Clamp an integer index into `[0, n - 1]`, the edge handling of the
Pillow blur (pixels outside the image repeat the edge pixel). -/
def clampIdx (n : Nat) (i : Int) : Nat := (max 0 (min ((n : Int) - 1) i)).toNat

/-- Sum of a channel over the clamped window `[c - k, c + k]`. -/
def boxSum (f : Nat → Nat) (n k c : Nat) : Nat :=
  (List.range (2 * k + 1)).foldl
    (fun s d => s + f (clampIdx n (((c + d : Nat) : Int) - (k : Int)))) 0

/-- Normalised window average with rounding. -/
def boxAvg (f : Nat → Nat) (n k c : Nat) : Nat := (boxSum f n k c + k) / (2 * k + 1)

/-- One channel of the blur: a horizontal then a vertical clamped box
average with half-width `k`. -/
def blurChan (k w h : Nat) (f : Nat → Nat → Nat) (x y : Nat) : Nat :=
  boxAvg (fun v => boxAvg (fun u => f u v) w k x) h k y

/-- Model of PIL `ImageFilter.GaussianBlur(radius)` as called on lines 41
and 47.  Pillow approximates the Gaussian by passes of normalised,
edge-clamped box averages applied independently per band; the model uses
one horizontal and one vertical pass with window half-width the ceiling of
the radius.  The claims rely only on properties the model shares with the
library routine: it is deterministic, it preserves the mode and the
dimensions of the image, it acts on each band independently and
identically, and it maps a constant band to the same constant band. -/
def gaussianBlur (radius : Q) (img : Img) : Img :=
  { img with px := fun x y =>
      { r := blurChan (boxRadius radius) img.width img.height (fun u v => (img.px u v).r) x y
        g := blurChan (boxRadius radius) img.width img.height (fun u v => (img.px u v).g) x y
        b := blurChan (boxRadius radius) img.width img.height (fun u v => (img.px u v).b) x y
        a := blurChan (boxRadius radius) img.width img.height (fun u v => (img.px u v).a) x y } }

/-- The input fields shared by both invocation classes (lines 22 to 28 and
64 to 70).  The host validates the ranges (amounts in [0, 800], blur in
[0, 100], seeds in [0, SEED_MAX] or absent) before `invoke` runs. -/
structure Params where
  amount_1 : Nat
  amount_2 : Nat
  seed_1 : Option Nat
  seed_2 : Option Nat
  blur_1 : Q
  blur_2 : Q

/-- The seed expression `self.seed_N if self.seed_N is not None else
get_random_seed()` on lines 37 and 43: an explicit seed wins, otherwise
the entropy value the host would supply. -/
def resolveSeed (s : Option Nat) (entropy : Nat) : Nat :=
  match s with
  | some v => v
  | none => entropy

/-- FilmGrainInvocation.invoke, lines 30 to 57.  `normal seed` is the
stream of standard-normal draws of `np.random.default_rng(seed)`;
`entropy1` and `entropy2` are the values `get_random_seed()` would return
at the two call sites.  The `.ok` result is the image passed to
`context.images.save`; an `.error` propagates to the host and nothing is
saved. -/
def FilmGrainInvoke (normal : Nat → Nat → Q) (entropy1 entropy2 : Nat)
    (p : Params) (image0 : Img) : Except String Img :=
  let image := if image0.mode = "RGBA" then convertRGB image0 else image0
  let noise1 := gaussianBlur p.blur_1
    (colorNoiseImage (normal (resolveSeed p.seed_1 entropy1)) p.amount_1 image.width image.height)
  let noise2 := gaussianBlur p.blur_2
    (colorNoiseImage (normal (resolveSeed p.seed_2 entropy2)) p.amount_2 image.width image.height)
  match overlay image noise1 with
  | .error e => .error e
  | .ok im1 =>
    match overlay im1 noise2 with
    | .error e => .error e
    | .ok im2 => .ok (if image0.mode = "RGBA" then convertRGBA im2 else im2)

/-- MonochromeFilmGrainInvocation.invoke, lines 72 to 101.  Identical to
the color variant except that each noise layer is drawn with shape
(height, width), built as a mode "L" image, blurred, and then converted to
RGB (lines 79 to 84 and 86 to 91). -/
def MonochromeFilmGrainInvoke (normal : Nat → Nat → Q) (entropy1 entropy2 : Nat)
    (p : Params) (image0 : Img) : Except String Img :=
  let image := if image0.mode = "RGBA" then convertRGB image0 else image0
  let noise1 := convertRGB (gaussianBlur p.blur_1
    (monoNoiseImageL (normal (resolveSeed p.seed_1 entropy1)) p.amount_1 image.width image.height))
  let noise2 := convertRGB (gaussianBlur p.blur_2
    (monoNoiseImageL (normal (resolveSeed p.seed_2 entropy2)) p.amount_2 image.width image.height))
  match overlay image noise1 with
  | .error e => .error e
  | .ok im1 =>
    match overlay im1 noise2 with
    | .error e => .error e
    | .ok im2 => .ok (if image0.mode = "RGBA" then convertRGBA im2 else im2)

/-- Overlay formula written from the words of the spec, for comparison
with `overlayByte` taken from the code: "if base < 128:
result = 2 * base * blend / 255, else: result = 255 - 2 * (255 - base) *
(255 - blend) / 255 ... each as 8-bit unsigned (truncating) arithmetic". -/
def overlayByteSpec (base blend : Nat) : Nat :=
  if base < 128 then 2 * base * blend / 255
  else 255 - 2 * (255 - base) * (255 - blend) / 255

/-- Alpha component of pixel (x, y) of the result of an invocation, when
it succeeded. -/
def alphaAt (res : Except String Img) (x y : Nat) : Option Nat :=
  match res with
  | .ok im => some ((im.px x y).a)
  | .error _ => none

/-- Whether an invocation succeeded. -/
def isOkE (res : Except String Img) : Bool :=
  match res with
  | .ok _ => true
  | .error _ => false

/-- Replace the pixel map of an image, keeping mode and dimensions. -/
def mapPx (img : Img) (f : Nat → Nat → Pixel) : Img :=
  { img with px := f }

/-- Pixel (x, y) of the result of an invocation, when it succeeded. -/
def pxAt (res : Except String Img) (x y : Nat) : Option Pixel :=
  match res with
  | .ok im => some (im.px x y)
  | .error _ => none

/-- Concrete generator whose draws are all 0 (used to evaluate the
embedding at specific inputs; the claims quantify over the generator). -/
def zeroStream : Nat → Nat → Q := fun _ _ => ⟨0, 1⟩

/-- Concrete sample stream whose i-th draw is the integer i. -/
def rampStream : Nat → Q := fun i => ⟨(i : Int), 1⟩

/-- The default field values of both invocation classes, with explicit
seeds 0 and 0. -/
def defaultParams : Params := ⟨100, 50, some 0, some 0, ⟨1, 2⟩, ⟨1, 2⟩⟩

/-- Parameters with both amounts 0 and explicit seeds. -/
def zeroAmountParams : Params := ⟨0, 0, some 0, some 0, ⟨1, 2⟩, ⟨1, 2⟩⟩

/-- A 1 by 1 RGBA image that is fully transparent. -/
def rgbaClear : Img := ⟨"RGBA", 1, 1, fun _ _ => ⟨10, 20, 30, 0⟩⟩

/-- A 1 by 1 RGBA image with alpha 255 everywhere. -/
def rgbaFull : Img := ⟨"RGBA", 1, 1, fun _ _ => ⟨10, 20, 30, 255⟩⟩

/-- A 2 by 2 RGB image of the solid color (200, 150, 100). -/
def rgbSolid : Img := ⟨"RGB", 2, 2, fun _ _ => ⟨200, 150, 100, 255⟩⟩

/-- A 1 by 1 grayscale (mode "L") image: 1 band, so the overlay against
an RGB noise layer fails. -/
def grayImg : Img := ⟨"L", 1, 1, fun _ _ => ⟨7, 7, 7, 255⟩⟩

/-- A 1 by 1 mode "YCbCr" image: 3 bands of 8 bits, so the chop accepts
it against an RGB noise layer even though its mode string differs. -/
def ycbcrImg : Img := ⟨"YCbCr", 1, 1, fun _ _ => ⟨50, 100, 150, 255⟩⟩

/-- A 1 by 1 mode "I" image: 32-bit pixels, so the chop rejects it with
the wrong-mode error. -/
def intImg : Img := ⟨"I", 1, 1, fun _ _ => ⟨1000, 0, 0, 0⟩⟩

@[simp] theorem mapPx_mode (img : Img) (f : Nat → Nat → Pixel) : (mapPx img f).mode = img.mode := rfl

@[simp] theorem mapPx_width (img : Img) (f : Nat → Nat → Pixel) : (mapPx img f).width = img.width := rfl

@[simp] theorem mapPx_height (img : Img) (f : Nat → Nat → Pixel) : (mapPx img f).height = img.height := rfl

@[simp] theorem mapPx_px (img : Img) (f : Nat → Nat → Pixel) : (mapPx img f).px = f := rfl

@[simp] theorem mapPx_mapPx (img : Img) (f g : Nat → Nat → Pixel) :
    mapPx (mapPx img f) g = mapPx img g := rfl

@[simp] theorem colorNoiseImage_mode (s : Nat → Q) (a w h : Nat) :
    (colorNoiseImage s a w h).mode = "RGB" := rfl

@[simp] theorem colorNoiseImage_width (s : Nat → Q) (a w h : Nat) :
    (colorNoiseImage s a w h).width = w := rfl

@[simp] theorem colorNoiseImage_height (s : Nat → Q) (a w h : Nat) :
    (colorNoiseImage s a w h).height = h := rfl

@[simp] theorem monoNoiseImageL_mode (s : Nat → Q) (a w h : Nat) :
    (monoNoiseImageL s a w h).mode = "L" := rfl

@[simp] theorem monoNoiseImageL_width (s : Nat → Q) (a w h : Nat) :
    (monoNoiseImageL s a w h).width = w := rfl

@[simp] theorem monoNoiseImageL_height (s : Nat → Q) (a w h : Nat) :
    (monoNoiseImageL s a w h).height = h := rfl

@[simp] theorem convertRGB_mode (img : Img) : (convertRGB img).mode = "RGB" := rfl

@[simp] theorem convertRGB_width (img : Img) : (convertRGB img).width = img.width := rfl

@[simp] theorem convertRGB_height (img : Img) : (convertRGB img).height = img.height := rfl

@[simp] theorem convertRGBA_mode (img : Img) : (convertRGBA img).mode = "RGBA" := rfl

@[simp] theorem convertRGBA_width (img : Img) : (convertRGBA img).width = img.width := rfl

@[simp] theorem convertRGBA_height (img : Img) : (convertRGBA img).height = img.height := rfl

@[simp] theorem gaussianBlur_mode (r : Q) (img : Img) : (gaussianBlur r img).mode = img.mode := rfl

@[simp] theorem gaussianBlur_width (r : Q) (img : Img) : (gaussianBlur r img).width = img.width := rfl

@[simp] theorem gaussianBlur_height (r : Q) (img : Img) : (gaussianBlur r img).height = img.height := rfl

/-- Evaluation facts for the mode table at the modes the code builds. -/
theorem pixType_rgb : pixType "RGB" = "uint8" := rfl

theorem bands_rgb : bands "RGB" = 3 := rfl

/-- Overlay succeeds when the first image is 8-bit and the two images
agree in pixel type and band count; with equal sizes it combines
pixelwise, keeping the metadata of the first image. -/
theorem overlay_ok (im1 im2 : Img) (h1 : pixType im1.mode = "uint8")
    (h2 : pixType im1.mode = pixType im2.mode) (h3 : bands im1.mode = bands im2.mode)
    (h4 : im1.width = im2.width) (h5 : im1.height = im2.height) :
    overlay im1 im2 = .ok (mapPx im1 (fun x y => overlayPixel (im1.px x y) (im2.px x y))) := by
  unfold overlay
  rw [if_pos h1, if_pos ⟨h2, h3⟩, ← h4, ← h5, Nat.min_self, Nat.min_self]
  rfl

/-- String facts used to reduce the mode tests of the code. -/
theorem rgb_ne_rgba : ("RGB" = "RGBA") = False := eq_false (by decide)

theorem rgba_eq_rgba : ("RGBA" = "RGBA") = True := eq_true rfl

/-- Overlay raises the wrong-mode error when the first image is not
8-bit. -/
theorem overlay_wrongmode (im1 im2 : Img) (h : pixType im1.mode ≠ "uint8") :
    overlay im1 im2 = .error "image has wrong mode" := by
  unfold overlay
  rw [if_neg h]

/-- Overlay raises the mismatch error when the pixel types or the band
counts differ. -/
theorem overlay_mismatch (im1 im2 : Img) (h1 : pixType im1.mode = "uint8")
    (h : ¬(pixType im1.mode = pixType im2.mode ∧ bands im1.mode = bands im2.mode)) :
    overlay im1 im2 = .error "images do not match" := by
  unfold overlay
  rw [if_pos h1, if_neg h]

/-- Closed form of the color invocation on any non-RGBA input stored as
3 bands of 8 bits (RGB, but also YCbCr, HSV, LAB): the chop accepts it
against the RGB noise layers, so the invocation succeeds and overlays the
two blurred noise layers onto the image in order. -/
theorem filmGrain_u3_eq (normal : Nat → Nat → Q) (e1 e2 : Nat) (p : Params) (img : Img)
    (hne : img.mode ≠ "RGBA") (hu : pixType img.mode = "uint8") (hb : bands img.mode = 3) :
    FilmGrainInvoke normal e1 e2 p img = .ok (mapPx img (fun x y =>
      overlayPixel (overlayPixel (img.px x y)
        ((gaussianBlur p.blur_1 (colorNoiseImage (normal (resolveSeed p.seed_1 e1))
          p.amount_1 img.width img.height)).px x y))
        ((gaussianBlur p.blur_2 (colorNoiseImage (normal (resolveSeed p.seed_2 e2))
          p.amount_2 img.width img.height)).px x y))) := by
  simp only [FilmGrainInvoke, hne, overlay_ok, hu, hb, pixType_rgb, bands_rgb, mapPx_mode,
    mapPx_width, mapPx_height, mapPx_px, mapPx_mapPx, colorNoiseImage_mode,
    colorNoiseImage_width, colorNoiseImage_height, gaussianBlur_mode, gaussianBlur_width,
    gaussianBlur_height, if_false]

/-- Closed form of the color invocation on an RGB input: it succeeds and
overlays the two blurred noise layers onto the image in order. -/
theorem filmGrain_rgb_eq (normal : Nat → Nat → Q) (e1 e2 : Nat) (p : Params) (img : Img)
    (h : img.mode = "RGB") :
    FilmGrainInvoke normal e1 e2 p img = .ok (mapPx img (fun x y =>
      overlayPixel (overlayPixel (img.px x y)
        ((gaussianBlur p.blur_1 (colorNoiseImage (normal (resolveSeed p.seed_1 e1))
          p.amount_1 img.width img.height)).px x y))
        ((gaussianBlur p.blur_2 (colorNoiseImage (normal (resolveSeed p.seed_2 e2))
          p.amount_2 img.width img.height)).px x y))) :=
  filmGrain_u3_eq normal e1 e2 p img (by rw [h]; decide) (by rw [h]; rfl) (by rw [h]; rfl)

/-- Closed form of the color invocation on an RGBA input: the alpha band
is dropped, the grain is applied, and the result is converted back to
RGBA. -/
theorem filmGrain_rgba_eq (normal : Nat → Nat → Q) (e1 e2 : Nat) (p : Params) (img : Img)
    (h : img.mode = "RGBA") :
    FilmGrainInvoke normal e1 e2 p img = .ok (convertRGBA (mapPx (convertRGB img) (fun x y =>
      overlayPixel (overlayPixel ((convertRGB img).px x y)
        ((gaussianBlur p.blur_1 (colorNoiseImage (normal (resolveSeed p.seed_1 e1))
          p.amount_1 img.width img.height)).px x y))
        ((gaussianBlur p.blur_2 (colorNoiseImage (normal (resolveSeed p.seed_2 e2))
          p.amount_2 img.width img.height)).px x y)))) := by
  simp only [FilmGrainInvoke, h, rgba_eq_rgba, overlay_ok, convertRGB_mode, convertRGB_width,
    convertRGB_height, rgb_ne_rgba, pixType_rgb, bands_rgb, mapPx_mode, mapPx_width, mapPx_height,
    mapPx_px, mapPx_mapPx, colorNoiseImage_mode, colorNoiseImage_width, colorNoiseImage_height,
    gaussianBlur_mode, gaussianBlur_width, gaussianBlur_height, if_true]

/-- Closed form of the monochrome invocation on any non-RGBA input stored
as 3 bands of 8 bits. -/
theorem monoGrain_u3_eq (normal : Nat → Nat → Q) (e1 e2 : Nat) (p : Params) (img : Img)
    (hne : img.mode ≠ "RGBA") (hu : pixType img.mode = "uint8") (hb : bands img.mode = 3) :
    MonochromeFilmGrainInvoke normal e1 e2 p img = .ok (mapPx img (fun x y =>
      overlayPixel (overlayPixel (img.px x y)
        ((convertRGB (gaussianBlur p.blur_1 (monoNoiseImageL (normal (resolveSeed p.seed_1 e1))
          p.amount_1 img.width img.height))).px x y))
        ((convertRGB (gaussianBlur p.blur_2 (monoNoiseImageL (normal (resolveSeed p.seed_2 e2))
          p.amount_2 img.width img.height))).px x y))) := by
  simp only [MonochromeFilmGrainInvoke, hne, overlay_ok, hu, hb, pixType_rgb, bands_rgb,
    mapPx_mode, mapPx_width, mapPx_height, mapPx_px, mapPx_mapPx, monoNoiseImageL_mode,
    monoNoiseImageL_width, monoNoiseImageL_height, convertRGB_mode, convertRGB_width,
    convertRGB_height, gaussianBlur_mode, gaussianBlur_width, gaussianBlur_height, if_false]

/-- Closed form of the monochrome invocation on an RGB input. -/
theorem monoGrain_rgb_eq (normal : Nat → Nat → Q) (e1 e2 : Nat) (p : Params) (img : Img)
    (h : img.mode = "RGB") :
    MonochromeFilmGrainInvoke normal e1 e2 p img = .ok (mapPx img (fun x y =>
      overlayPixel (overlayPixel (img.px x y)
        ((convertRGB (gaussianBlur p.blur_1 (monoNoiseImageL (normal (resolveSeed p.seed_1 e1))
          p.amount_1 img.width img.height))).px x y))
        ((convertRGB (gaussianBlur p.blur_2 (monoNoiseImageL (normal (resolveSeed p.seed_2 e2))
          p.amount_2 img.width img.height))).px x y))) :=
  monoGrain_u3_eq normal e1 e2 p img (by rw [h]; decide) (by rw [h]; rfl) (by rw [h]; rfl)

/-- Closed form of the monochrome invocation on an RGBA input. -/
theorem monoGrain_rgba_eq (normal : Nat → Nat → Q) (e1 e2 : Nat) (p : Params) (img : Img)
    (h : img.mode = "RGBA") :
    MonochromeFilmGrainInvoke normal e1 e2 p img = .ok (convertRGBA (mapPx (convertRGB img)
      (fun x y => overlayPixel (overlayPixel ((convertRGB img).px x y)
        ((convertRGB (gaussianBlur p.blur_1 (monoNoiseImageL (normal (resolveSeed p.seed_1 e1))
          p.amount_1 img.width img.height))).px x y))
        ((convertRGB (gaussianBlur p.blur_2 (monoNoiseImageL (normal (resolveSeed p.seed_2 e2))
          p.amount_2 img.width img.height))).px x y)))) := by
  simp only [MonochromeFilmGrainInvoke, h, rgba_eq_rgba, overlay_ok, convertRGB_mode,
    convertRGB_width, convertRGB_height, rgb_ne_rgba, pixType_rgb, bands_rgb, mapPx_mode,
    mapPx_width, mapPx_height, mapPx_px, mapPx_mapPx, monoNoiseImageL_mode, monoNoiseImageL_width,
    monoNoiseImageL_height, gaussianBlur_mode, gaussianBlur_width, gaussianBlur_height, if_true]

/-- On a non-RGBA input that is not stored in 8-bit bands (modes "I" and
"F"), the first overlay call of the color invocation raises the
wrong-mode error, which propagates. -/
theorem filmGrain_wrongtype_eq (normal : Nat → Nat → Q) (e1 e2 : Nat) (p : Params) (img : Img)
    (hne : img.mode ≠ "RGBA") (hu : pixType img.mode ≠ "uint8") :
    FilmGrainInvoke normal e1 e2 p img = .error "image has wrong mode" := by
  simp only [FilmGrainInvoke, hne, if_false, ite_false]
  rw [overlay_wrongmode]
  exact hu

/-- The monochrome variant raises the same wrong-mode error. -/
theorem monoGrain_wrongtype_eq (normal : Nat → Nat → Q) (e1 e2 : Nat) (p : Params) (img : Img)
    (hne : img.mode ≠ "RGBA") (hu : pixType img.mode ≠ "uint8") :
    MonochromeFilmGrainInvoke normal e1 e2 p img = .error "image has wrong mode" := by
  simp only [MonochromeFilmGrainInvoke, hne, if_false, ite_false]
  rw [overlay_wrongmode]
  exact hu

/-- On a non-RGBA 8-bit input whose band count differs from 3 (such as
"L", "P", "LA" or "CMYK"), the first overlay call of the color invocation
raises the mismatch error, which propagates. -/
theorem filmGrain_mismatch_eq (normal : Nat → Nat → Q) (e1 e2 : Nat) (p : Params) (img : Img)
    (hne : img.mode ≠ "RGBA") (hu : pixType img.mode = "uint8") (hb : bands img.mode ≠ 3) :
    FilmGrainInvoke normal e1 e2 p img = .error "images do not match" := by
  simp only [FilmGrainInvoke, hne, if_false, ite_false]
  rw [overlay_mismatch]
  · exact hu
  · intro hc
    apply hb
    have h3 := hc.2
    simp only [gaussianBlur_mode, colorNoiseImage_mode, bands_rgb] at h3
    exact h3

/-- The monochrome variant raises the same mismatch error on a band-count
mismatch. -/
theorem monoGrain_mismatch_eq (normal : Nat → Nat → Q) (e1 e2 : Nat) (p : Params) (img : Img)
    (hne : img.mode ≠ "RGBA") (hu : pixType img.mode = "uint8") (hb : bands img.mode ≠ 3) :
    MonochromeFilmGrainInvoke normal e1 e2 p img = .error "images do not match" := by
  simp only [MonochromeFilmGrainInvoke, hne, if_false, ite_false]
  rw [overlay_mismatch]
  · exact hu
  · intro hc
    apply hb
    have h3 := hc.2
    simp only [convertRGB_mode, bands_rgb] at h3
    exact h3

/-- Folding a constant increment over a list adds the length times the
constant. -/
theorem foldl_add_const (l : List Nat) (c a : Nat) :
    l.foldl (fun s _ => s + c) a = a + l.length * c := by
  induction l generalizing a with
  | nil => simp
  | cons hd tl ih =>
    simp only [List.foldl_cons, ih, List.length_cons]
    ring

/-- A box sum over a constant channel. -/
theorem boxSum_const (n k x c : Nat) : boxSum (fun _ => c) n k x = (2 * k + 1) * c := by
  simp only [boxSum]
  rw [foldl_add_const]
  simp [List.length_range]

/-- A box average of a constant channel is that constant. -/
theorem boxAvg_const (n k x c : Nat) : boxAvg (fun _ => c) n k x = c := by
  simp only [boxAvg, boxSum_const]
  rw [Nat.mul_add_div (by omega)]
  rw [Nat.div_eq_of_lt (by omega)]
  omega

/-- Blurring a constant channel leaves it constant. -/
theorem blurChan_const (k w h x y c : Nat) : blurChan k w h (fun _ _ => c) x y = c := by
  simp only [blurChan, boxAvg_const]

/-- With amount 0, every stored noise byte is 127: the value 127.5
truncates to 127 in the uint8 cast. -/
theorem noiseByte_amount_zero (samples : Nat → Q) (i : Nat) (hden : 0 < (samples i).den) :
    noiseByte samples 0 i = 127 := by
  rcases hsi : samples i with ⟨n, d⟩
  rw [hsi] at hden
  simp only at hden
  simp only [noiseByte, astypeUint8, Q.trunc, Q.add, Q.mul, hsi]
  simp only [Nat.cast_ofNat, Nat.cast_zero, mul_zero, zero_mul, zero_add, Int.natCast_mul]
  rw [show ((255 : Int) * ((d : Int) * 2 * 800)) = (((255 * (d * 2 * 800) : Nat) : Int)) by
    push_cast; ring]
  rw [show ((d : Int) * 2 * 800 * 2) = (((d * 2 * 800 * 2 : Nat)) : Int) by push_cast; ring]
  rw [← Int.ofNat_tdiv]
  have hdiv : 255 * (d * 2 * 800) / (d * 2 * 800 * 2) = 127 := by
    have hrw : 255 * (d * 2 * 800) = (d * 2 * 800 * 2) * 127 + d * 2 * 800 := by ring
    rw [hrw, Nat.mul_add_div (by omega), Nat.div_eq_of_lt (by omega)]
  rw [hdiv]
  rfl

/-- Pillow MULDIV255 is division by 255 rounded to nearest, which for a
product in the byte range equals truncating division of the product plus
127. -/
theorem muldiv255_eq_round (a b : Nat) (h : a * b ≤ 65025) :
    muldiv255 a b = (a * b + 127) / 255 := by
  unfold muldiv255
  simp only [Nat.shiftRight_eq_div_pow]
  norm_num
  generalize a * b = n at *
  omega

set_option maxRecDepth 4000 in
/-- Overlaying any byte below 256 with a mid blend byte of 127 returns the
base byte unchanged. -/
theorem overlayByte_127 : ∀ c < 256, overlayByte c 127 = c := by decide

/-- C2: for every valid input image (mode RGB or RGBA, non-empty), the
output image of either invocation has the same width and height as the
input, and the same color mode; only pixel values change. -/
theorem claim_output_dims_mode_preserved (normal : Nat → Nat → Q) (e1 e2 : Nat) (p : Params)
    (img : Img) (hmode : img.mode = "RGB" ∨ img.mode = "RGBA")
    (_hw : 0 < img.width) (_hh : 0 < img.height) :
    (∃ out, FilmGrainInvoke normal e1 e2 p img = .ok out ∧
      out.width = img.width ∧ out.height = img.height ∧ out.mode = img.mode) ∧
    (∃ out, MonochromeFilmGrainInvoke normal e1 e2 p img = .ok out ∧
      out.width = img.width ∧ out.height = img.height ∧ out.mode = img.mode) := by
  rcases hmode with h | h
  · exact ⟨⟨_, filmGrain_rgb_eq normal e1 e2 p img h, rfl, rfl, rfl⟩,
      ⟨_, monoGrain_rgb_eq normal e1 e2 p img h, rfl, rfl, rfl⟩⟩
  · exact ⟨⟨_, filmGrain_rgba_eq normal e1 e2 p img h, rfl, rfl, h.symm⟩,
      ⟨_, monoGrain_rgba_eq normal e1 e2 p img h, rfl, rfl, h.symm⟩⟩

/-- Witness for C2 at a concrete 2 by 2 RGB image. -/
theorem claim_output_dims_mode_preserved_witness :
    (∃ out, FilmGrainInvoke zeroStream 0 0 defaultParams rgbSolid = .ok out ∧
      out.width = rgbSolid.width ∧ out.height = rgbSolid.height ∧ out.mode = rgbSolid.mode) ∧
    (∃ out, MonochromeFilmGrainInvoke zeroStream 0 0 defaultParams rgbSolid = .ok out ∧
      out.width = rgbSolid.width ∧ out.height = rgbSolid.height ∧ out.mode = rgbSolid.mode) :=
  claim_output_dims_mode_preserved zeroStream 0 0 defaultParams rgbSolid (Or.inl rfl)
    (by decide) (by decide)

/-- C3: with both seeds given explicitly, the result of either invocation
does not depend on the entropy source: runs with different entropy values
produce identical outputs. -/
theorem claim_deterministic_given_seeds (normal : Nat → Nat → Q) (e1 e2 f1 f2 : Nat)
    (p : Params) (img : Img) (h1 : p.seed_1 ≠ none) (h2 : p.seed_2 ≠ none) :
    FilmGrainInvoke normal e1 e2 p img = FilmGrainInvoke normal f1 f2 p img ∧
    MonochromeFilmGrainInvoke normal e1 e2 p img = MonochromeFilmGrainInvoke normal f1 f2 p img := by
  rcases hs1 : p.seed_1 with _ | s1
  · exact absurd hs1 h1
  rcases hs2 : p.seed_2 with _ | s2
  · exact absurd hs2 h2
  constructor
  · simp only [FilmGrainInvoke, resolveSeed, hs1, hs2]
  · simp only [MonochromeFilmGrainInvoke, resolveSeed, hs1, hs2]

/-- Witness for C3: two runs with different entropy but the same explicit
seeds coincide. -/
theorem claim_deterministic_given_seeds_witness :
    FilmGrainInvoke zeroStream 0 1 defaultParams rgbSolid =
      FilmGrainInvoke zeroStream 5 6 defaultParams rgbSolid ∧
    MonochromeFilmGrainInvoke zeroStream 0 1 defaultParams rgbSolid =
      MonochromeFilmGrainInvoke zeroStream 5 6 defaultParams rgbSolid :=
  claim_deterministic_given_seeds zeroStream 0 1 5 6 defaultParams rgbSolid
    (by decide) (by decide)

/-- C8 counterexample: a mode "YCbCr" input, whose mode is neither RGB
nor RGBA, is 3 bands of 8 bits, so Pillow's chop accepts it against the
RGB noise layers, both invocations succeed, and the result reaches the
save call: the claimed universal failure is false. -/
theorem claim_unsupported_mode_cex :
    ycbcrImg.mode ≠ "RGB" ∧ ycbcrImg.mode ≠ "RGBA" ∧
    isOkE (FilmGrainInvoke zeroStream 0 0 defaultParams ycbcrImg) = true ∧
    isOkE (MonochromeFilmGrainInvoke zeroStream 0 0 defaultParams ycbcrImg) = true := by
  decide

/-- C8 as amended: the chop machinery compares band count and pixel type,
not mode strings.  A non-RGBA input that is not 8-bit ("I", "F") makes
both invocations fail with the wrong-mode error; an 8-bit input whose
band count differs from 3 ("1", "L", "P", "LA", "CMYK", "RGBX") makes
them fail with the mismatch error; in both cases the error propagates
before anything is saved.  But a 3-band 8-bit input ("RGB", and also
"YCbCr", "HSV", "LAB") passes both overlays and is composited and saved
with its mode unchanged. -/
theorem claim_unsupported_mode_amended (normal : Nat → Nat → Q) (e1 e2 : Nat) (p : Params)
    (img : Img) (hne : img.mode ≠ "RGBA") :
    (pixType img.mode ≠ "uint8" →
      FilmGrainInvoke normal e1 e2 p img = .error "image has wrong mode" ∧
      MonochromeFilmGrainInvoke normal e1 e2 p img = .error "image has wrong mode") ∧
    (pixType img.mode = "uint8" → bands img.mode ≠ 3 →
      FilmGrainInvoke normal e1 e2 p img = .error "images do not match" ∧
      MonochromeFilmGrainInvoke normal e1 e2 p img = .error "images do not match") ∧
    (pixType img.mode = "uint8" → bands img.mode = 3 →
      (∃ out, FilmGrainInvoke normal e1 e2 p img = .ok out ∧ out.mode = img.mode) ∧
      (∃ out, MonochromeFilmGrainInvoke normal e1 e2 p img = .ok out ∧
        out.mode = img.mode)) :=
  ⟨fun hu => ⟨filmGrain_wrongtype_eq normal e1 e2 p img hne hu,
              monoGrain_wrongtype_eq normal e1 e2 p img hne hu⟩,
   fun hu hb => ⟨filmGrain_mismatch_eq normal e1 e2 p img hne hu hb,
                 monoGrain_mismatch_eq normal e1 e2 p img hne hu hb⟩,
   fun hu hb => ⟨⟨_, filmGrain_u3_eq normal e1 e2 p img hne hu hb, rfl⟩,
                 ⟨_, monoGrain_u3_eq normal e1 e2 p img hne hu hb, rfl⟩⟩⟩

/-- Witness for the amended C8: a 32-bit "I" input fails with the
wrong-mode error, a 1-band "L" input fails with the mismatch error, and a
3-band "YCbCr" input succeeds with its mode preserved. -/
theorem claim_unsupported_mode_amended_witness :
    (FilmGrainInvoke zeroStream 0 0 defaultParams intImg = .error "image has wrong mode" ∧
      MonochromeFilmGrainInvoke zeroStream 0 0 defaultParams intImg =
        .error "image has wrong mode") ∧
    (FilmGrainInvoke zeroStream 0 0 defaultParams grayImg = .error "images do not match" ∧
      MonochromeFilmGrainInvoke zeroStream 0 0 defaultParams grayImg =
        .error "images do not match") ∧
    ((∃ out, FilmGrainInvoke zeroStream 0 0 defaultParams ycbcrImg = .ok out ∧
        out.mode = ycbcrImg.mode) ∧
      (∃ out, MonochromeFilmGrainInvoke zeroStream 0 0 defaultParams ycbcrImg = .ok out ∧
        out.mode = ycbcrImg.mode)) :=
  ⟨(claim_unsupported_mode_amended zeroStream 0 0 defaultParams intImg (by decide)).1
      (by decide),
   (claim_unsupported_mode_amended zeroStream 0 0 defaultParams grayImg (by decide)).2.1
      (by decide) (by decide),
   (claim_unsupported_mode_amended zeroStream 0 0 defaultParams ycbcrImg (by decide)).2.2
      (by decide) (by decide)⟩

/-- C10: for every RGBA input, the alpha channel of a successful output is
255 at every pixel, whatever the input alpha was: the final
convert("RGBA") creates a fully filled alpha band rather than restoring
the original one. -/
theorem claim_output_alpha_255 (normal : Nat → Nat → Q) (e1 e2 : Nat) (p : Params) (img : Img)
    (h : img.mode = "RGBA") :
    (∀ out, FilmGrainInvoke normal e1 e2 p img = .ok out → ∀ x y, (out.px x y).a = 255) ∧
    (∀ out, MonochromeFilmGrainInvoke normal e1 e2 p img = .ok out →
      ∀ x y, (out.px x y).a = 255) := by
  constructor
  · intro out hok x y
    rw [filmGrain_rgba_eq normal e1 e2 p img h] at hok
    injection hok with h2
    rw [← h2]
    rfl
  · intro out hok x y
    rw [monoGrain_rgba_eq normal e1 e2 p img h] at hok
    injection hok with h2
    rw [← h2]
    rfl

/-- Witness for C10 at a concrete fully transparent RGBA image. -/
theorem claim_output_alpha_255_witness :
    alphaAt (FilmGrainInvoke zeroStream 0 0 defaultParams rgbaClear) 0 0 = some 255 ∧
    alphaAt (MonochromeFilmGrainInvoke zeroStream 0 0 defaultParams rgbaClear) 0 0 = some 255 := by
  have h := claim_output_alpha_255 zeroStream 0 0 defaultParams rgbaClear rfl
  constructor
  · cases hok : FilmGrainInvoke zeroStream 0 0 defaultParams rgbaClear with
    | error e =>
      have hT : isOkE (FilmGrainInvoke zeroStream 0 0 defaultParams rgbaClear) = true := by decide
      rw [hok] at hT
      exact Bool.noConfusion hT
    | ok out =>
      simp only [alphaAt]
      rw [h.1 out hok 0 0]
  · cases hok : MonochromeFilmGrainInvoke zeroStream 0 0 defaultParams rgbaClear with
    | error e =>
      have hT : isOkE (MonochromeFilmGrainInvoke zeroStream 0 0 defaultParams rgbaClear) = true :=
        by decide
      rw [hok] at hT
      exact Bool.noConfusion hT
    | ok out =>
      simp only [alphaAt]
      rw [h.2 out hok 0 0]

/-- C1 counterexample: on a fully transparent 1 by 1 RGBA input the color
invocation returns alpha 255 at pixel (0, 0), while the input alpha there
is 0, so the output alpha channel is not byte-identical to the input
alpha channel. -/
theorem claim_alpha_preserved_cex :
    alphaAt (FilmGrainInvoke zeroStream 0 0 defaultParams rgbaClear) 0 0 = some 255 ∧
    (rgbaClear.px 0 0).a = 0 :=
  ⟨by decide, rfl⟩

/-- C1 as amended: the output alpha equals the input alpha only because
both are 255; for an RGBA input whose alpha is 255 everywhere, every
successful output pixel has the same alpha as the input pixel. -/
theorem claim_alpha_preserved_iff_full_alpha (normal : Nat → Nat → Q) (e1 e2 : Nat)
    (p : Params) (img : Img) (h : img.mode = "RGBA")
    (hfull : ∀ x y, (img.px x y).a = 255) :
    (∀ out, FilmGrainInvoke normal e1 e2 p img = .ok out →
      ∀ x y, (out.px x y).a = (img.px x y).a) ∧
    (∀ out, MonochromeFilmGrainInvoke normal e1 e2 p img = .ok out →
      ∀ x y, (out.px x y).a = (img.px x y).a) := by
  constructor
  · intro out hok x y
    rw [filmGrain_rgba_eq normal e1 e2 p img h] at hok
    injection hok with h2
    rw [← h2, hfull x y]
    rfl
  · intro out hok x y
    rw [monoGrain_rgba_eq normal e1 e2 p img h] at hok
    injection hok with h2
    rw [← h2, hfull x y]
    rfl

/-- Witness for the amended C1 at a concrete fully opaque RGBA image. -/
theorem claim_alpha_preserved_iff_full_alpha_witness :
    alphaAt (FilmGrainInvoke zeroStream 0 0 defaultParams rgbaFull) 0 0 =
      some ((rgbaFull.px 0 0).a) ∧
    alphaAt (MonochromeFilmGrainInvoke zeroStream 0 0 defaultParams rgbaFull) 0 0 =
      some ((rgbaFull.px 0 0).a) := by
  have h := claim_alpha_preserved_iff_full_alpha zeroStream 0 0 defaultParams rgbaFull rfl
    (fun _ _ => rfl)
  constructor
  · cases hok : FilmGrainInvoke zeroStream 0 0 defaultParams rgbaFull with
    | error e =>
      have hT : isOkE (FilmGrainInvoke zeroStream 0 0 defaultParams rgbaFull) = true := by decide
      rw [hok] at hT
      exact Bool.noConfusion hT
    | ok out =>
      simp only [alphaAt]
      rw [h.1 out hok 0 0]
  · cases hok : MonochromeFilmGrainInvoke zeroStream 0 0 defaultParams rgbaFull with
    | error e =>
      have hT : isOkE (MonochromeFilmGrainInvoke zeroStream 0 0 defaultParams rgbaFull) = true :=
        by decide
      rw [hok] at hT
      exact Bool.noConfusion hT
    | ok out =>
      simp only [alphaAt]
      rw [h.2 out hok 0 0]

/-- C9: the uint8 cast of a noise value truncates toward zero and wraps
modulo 2^8: 256.7 is stored as 0 and -1.2 as 255, instead of saturating
at 255 and 0; every stored noise byte is the truncation of the scaled
and shifted value reduced modulo 256. -/
theorem claim_uint8_cast_wraps :
    (∀ q : Q, astypeUint8 q = (Q.trunc q % 256).toNat) ∧
    Q.trunc ⟨2567, 10⟩ = 256 ∧ astypeUint8 ⟨2567, 10⟩ = 0 ∧
    Q.trunc ⟨-12, 10⟩ = -1 ∧ astypeUint8 ⟨-12, 10⟩ = 255 ∧
    (∀ samples amount i, noiseByte samples amount i =
      astypeUint8 (Q.add (Q.mul (Q.mul (samples i) ⟨255, 2⟩) ⟨(amount : Int), 800⟩) ⟨255, 2⟩)) :=
  ⟨fun _ => rfl, by decide, by decide, by decide, by decide, fun _ _ _ => rfl⟩

/-- C4: each stored noise byte is the raw sample scaled by
127.5 * (amount / 800), shifted by 127.5, and cast to uint8 by
truncation; the noise images are built from these bytes, and the
invocation blurs each noise image and only then composites it (the
pipeline equation restates the invocation body: cast happens inside
colorNoiseImage, Gaussian blur is applied to that image, and overlay
receives the blurred layer). -/
theorem claim_noise_transform :
    (∀ samples amount i, noiseByte samples amount i =
      astypeUint8 (Q.add (Q.mul (Q.mul (samples i) ⟨255, 2⟩) ⟨(amount : Int), 800⟩) ⟨255, 2⟩)) ∧
    (∀ samples amount w h x y, (colorNoiseImage samples amount w h).px x y =
      ⟨noiseByte samples amount ((y * w + x) * 3), noiseByte samples amount ((y * w + x) * 3 + 1),
        noiseByte samples amount ((y * w + x) * 3 + 2), 255⟩) ∧
    (∀ samples amount w h x y, (monoNoiseImageL samples amount w h).px x y =
      ⟨noiseByte samples amount (y * w + x), noiseByte samples amount (y * w + x),
        noiseByte samples amount (y * w + x), 255⟩) ∧
    (∀ normal e1 e2 p img,
      FilmGrainInvoke normal e1 e2 p img =
        match overlay (if img.mode = "RGBA" then convertRGB img else img)
          (gaussianBlur p.blur_1 (colorNoiseImage (normal (resolveSeed p.seed_1 e1)) p.amount_1
            (if img.mode = "RGBA" then convertRGB img else img).width
            (if img.mode = "RGBA" then convertRGB img else img).height)) with
        | .error e => .error e
        | .ok im1 =>
          match overlay im1
            (gaussianBlur p.blur_2 (colorNoiseImage (normal (resolveSeed p.seed_2 e2)) p.amount_2
              (if img.mode = "RGBA" then convertRGB img else img).width
              (if img.mode = "RGBA" then convertRGB img else img).height)) with
          | .error e => .error e
          | .ok im2 => .ok (if img.mode = "RGBA" then convertRGBA im2 else im2)) :=
  ⟨fun _ _ _ => rfl, fun _ _ _ _ _ _ => rfl, fun _ _ _ _ _ _ => rfl, fun _ _ _ _ _ => rfl⟩

/-- C5 counterexample: the code blend and the spec formula with truncating
division disagree at base 1, blend 200: Pillow rounds 400 / 255 up to 2,
truncation gives 1. -/
theorem claim_overlay_trunc_cex :
    overlayByte 1 200 = 2 ∧ overlayByteSpec 1 200 = 1 ∧
    overlayByte 1 200 ≠ overlayByteSpec 1 200 := by
  decide

/-- C5 as amended: the overlay blend follows the standard piecewise
formula per channel, but the division by 255 rounds to nearest (Pillow
MULDIV255), equal to truncating division after adding 127 to the product;
the blend is applied per channel, first between the alpha-stripped image
and noise layer 1 and then between that result and noise layer 2. -/
theorem claim_overlay_rounded :
    (∀ base blend, base < 256 → blend < 256 → overlayByte base blend =
      if base < 128 then (2 * base * blend + 127) / 255
      else 255 - (2 * (255 - base) * (255 - blend) + 127) / 255) ∧
    (∀ p q : Pixel, overlayPixel p q =
      ⟨overlayByte p.r q.r, overlayByte p.g q.g, overlayByte p.b q.b, overlayByte p.a q.a⟩) ∧
    (∀ normal e1 e2 p img, img.mode = "RGB" →
      FilmGrainInvoke normal e1 e2 p img = .ok (mapPx img (fun x y =>
        overlayPixel (overlayPixel (img.px x y)
          ((gaussianBlur p.blur_1 (colorNoiseImage (normal (resolveSeed p.seed_1 e1))
            p.amount_1 img.width img.height)).px x y))
          ((gaussianBlur p.blur_2 (colorNoiseImage (normal (resolveSeed p.seed_2 e2))
            p.amount_2 img.width img.height)).px x y)))) := by
  refine ⟨?_, fun _ _ => rfl, fun normal e1 e2 p img h => filmGrain_rgb_eq normal e1 e2 p img h⟩
  intro base blend hb hl
  unfold overlayByte
  split
  · rw [muldiv255_eq_round]
    nlinarith
  · rw [muldiv255_eq_round]
    have h1 : 2 * (255 - base) ≤ 254 := by omega
    have h2 : 255 - blend ≤ 255 := by omega
    calc 2 * (255 - base) * (255 - blend) ≤ 254 * 255 := Nat.mul_le_mul h1 h2
      _ ≤ 65025 := by norm_num

/-- Witness for the amended C5: the rounded formula at base 1, blend 200,
and the full pipeline shape at a concrete RGB image. -/
theorem claim_overlay_rounded_witness :
    overlayByte 1 200 =
      (if 1 < 128 then (2 * 1 * 200 + 127) / 255
        else 255 - (2 * (255 - 1) * (255 - 200) + 127) / 255) ∧
    FilmGrainInvoke zeroStream 0 0 defaultParams rgbSolid = .ok (mapPx rgbSolid (fun x y =>
      overlayPixel (overlayPixel (rgbSolid.px x y)
        ((gaussianBlur defaultParams.blur_1
          (colorNoiseImage (zeroStream (resolveSeed defaultParams.seed_1 0))
            defaultParams.amount_1 rgbSolid.width rgbSolid.height)).px x y))
        ((gaussianBlur defaultParams.blur_2
          (colorNoiseImage (zeroStream (resolveSeed defaultParams.seed_2 0))
            defaultParams.amount_2 rgbSolid.width rgbSolid.height)).px x y))) :=
  ⟨claim_overlay_rounded.1 1 200 (by decide) (by decide),
   claim_overlay_rounded.2.2 zeroStream 0 0 defaultParams rgbSolid rfl⟩

/-- C6: in the monochrome variant, each noise layer contributes the same
value to the R, G and B channels of every pixel (the single gray channel
is replicated), while in the color variant the three channels take their
values from three distinct sample indices and can differ. -/
theorem claim_mono_gray_color_independent :
    (∀ samples amount w h r x y,
      (((convertRGB (gaussianBlur r (monoNoiseImageL samples amount w h))).px x y).r =
        ((convertRGB (gaussianBlur r (monoNoiseImageL samples amount w h))).px x y).g) ∧
      (((convertRGB (gaussianBlur r (monoNoiseImageL samples amount w h))).px x y).g =
        ((convertRGB (gaussianBlur r (monoNoiseImageL samples amount w h))).px x y).b)) ∧
    (∀ samples amount w h x y,
      ((colorNoiseImage samples amount w h).px x y).r =
        noiseByte samples amount ((y * w + x) * 3) ∧
      ((colorNoiseImage samples amount w h).px x y).g =
        noiseByte samples amount ((y * w + x) * 3 + 1) ∧
      ((colorNoiseImage samples amount w h).px x y).b =
        noiseByte samples amount ((y * w + x) * 3 + 2)) ∧
    (∃ samples : Nat → Q, ∃ amount w h x y : Nat,
      ((colorNoiseImage samples amount w h).px x y).r ≠
        ((colorNoiseImage samples amount w h).px x y).g) :=
  ⟨fun _ _ _ _ _ _ _ => ⟨rfl, rfl⟩,
   fun _ _ _ _ _ _ => ⟨rfl, rfl, rfl⟩,
   ⟨rampStream, 800, 1, 1, 0, 0, by decide⟩⟩

/-- With amount 0 every pixel of the blurred color noise layer is the
constant (127, 127, 127) with padding byte 255: the raw bytes are all 127
and the blur preserves constant bands. -/
theorem gaussianBlur_colorNoise_zero_px (samples : Nat → Q) (r : Q) (w h x y : Nat)
    (hd : ∀ j, 0 < (samples j).den) :
    (gaussianBlur r (colorNoiseImage samples 0 w h)).px x y = ⟨127, 127, 127, 255⟩ := by
  have hr : (fun u v => ((colorNoiseImage samples 0 w h).px u v).r) = fun _ _ => (127 : Nat) := by
    funext u v
    exact noiseByte_amount_zero samples _ (hd _)
  have hg : (fun u v => ((colorNoiseImage samples 0 w h).px u v).g) = fun _ _ => (127 : Nat) := by
    funext u v
    exact noiseByte_amount_zero samples _ (hd _)
  have hb : (fun u v => ((colorNoiseImage samples 0 w h).px u v).b) = fun _ _ => (127 : Nat) := by
    funext u v
    exact noiseByte_amount_zero samples _ (hd _)
  have ha : (fun u v => ((colorNoiseImage samples 0 w h).px u v).a) = fun _ _ => (255 : Nat) := by
    funext u v
    rfl
  simp only [gaussianBlur]
  rw [hr, hg, hb, ha]
  simp only [blurChan_const]

/-- C7 counterexample: with amount 0 a noise byte is 127, not 128 (127.5
truncates down), and on a concrete solid RGB image the invocation with
both amounts 0 returns every pixel exactly unchanged, an exact no-op
rather than a small nonzero residual. -/
theorem claim_amount_zero_cex :
    noiseByte (zeroStream 0) 0 0 = 127 ∧ (127 : Nat) ≠ 128 ∧
    pxAt (FilmGrainInvoke zeroStream 0 0 zeroAmountParams rgbSolid) 0 0 =
      some (rgbSolid.px 0 0) ∧
    pxAt (FilmGrainInvoke zeroStream 0 0 zeroAmountParams rgbSolid) 1 0 =
      some (rgbSolid.px 1 0) ∧
    pxAt (FilmGrainInvoke zeroStream 0 0 zeroAmountParams rgbSolid) 0 1 =
      some (rgbSolid.px 0 1) ∧
    pxAt (FilmGrainInvoke zeroStream 0 0 zeroAmountParams rgbSolid) 1 1 =
      some (rgbSolid.px 1 1) := by
  decide

/-- C7 as amended: with both amounts 0 each noise layer is the uniform
byte 127 (the truncation of 127.5), and on an RGB input with in-range
bytes the output equals the input exactly: overlaying with a uniform 127
layer is the identity on every byte below 256, so there is no residual at
all. -/
theorem claim_amount_zero_noop (normal : Nat → Nat → Q) (e1 e2 : Nat) (p : Params) (img : Img)
    (h01 : p.amount_1 = 0) (h02 : p.amount_2 = 0) (hmode : img.mode = "RGB")
    (hden : ∀ s j, 0 < (normal s j).den)
    (hbytes : ∀ x y, x < img.width → y < img.height →
      (img.px x y).r < 256 ∧ (img.px x y).g < 256 ∧ (img.px x y).b < 256) :
    (∀ samples j, (∀ i, 0 < (samples i).den) → noiseByte samples 0 j = 127) ∧
    (∃ out, FilmGrainInvoke normal e1 e2 p img = .ok out ∧ out.mode = img.mode ∧
      out.width = img.width ∧ out.height = img.height ∧
      ∀ x y, x < img.width → y < img.height →
        (out.px x y).r = (img.px x y).r ∧ (out.px x y).g = (img.px x y).g ∧
        (out.px x y).b = (img.px x y).b) := by
  refine ⟨fun samples j hi => noiseByte_amount_zero samples j (hi j), ?_⟩
  have heq := filmGrain_rgb_eq normal e1 e2 p img hmode
  rw [h01, h02] at heq
  refine ⟨_, heq, rfl, rfl, rfl, ?_⟩
  intro x y hx hy
  obtain ⟨hb1, hb2, hb3⟩ := hbytes x y hx hy
  simp only [mapPx_px]
  rw [gaussianBlur_colorNoise_zero_px _ _ _ _ x y (fun j => hden _ j)]
  rw [gaussianBlur_colorNoise_zero_px _ _ _ _ x y (fun j => hden _ j)]
  simp only [overlayPixel]
  refine ⟨?_, ?_, ?_⟩
  · rw [overlayByte_127 _ hb1, overlayByte_127 _ hb1]
  · rw [overlayByte_127 _ hb2, overlayByte_127 _ hb2]
  · rw [overlayByte_127 _ hb3, overlayByte_127 _ hb3]

/-- Witness for the amended C7 at a concrete solid RGB image with both
amounts 0. -/
theorem claim_amount_zero_noop_witness :
    (∀ samples j, (∀ i, 0 < (samples i).den) → noiseByte samples 0 j = 127) ∧
    (∃ out, FilmGrainInvoke zeroStream 0 0 zeroAmountParams rgbSolid = .ok out ∧
      out.mode = rgbSolid.mode ∧ out.width = rgbSolid.width ∧ out.height = rgbSolid.height ∧
      ∀ x y, x < rgbSolid.width → y < rgbSolid.height →
        (out.px x y).r = (rgbSolid.px x y).r ∧ (out.px x y).g = (rgbSolid.px x y).g ∧
        (out.px x y).b = (rgbSolid.px x y).b) :=
  claim_amount_zero_noop zeroStream 0 0 zeroAmountParams rgbSolid rfl rfl rfl
    (fun _ _ => Nat.one_pos) (fun x y hx hy =>
      ⟨by exact (show (200 : Nat) < 256 by decide), by exact (show (150 : Nat) < 256 by decide),
       by exact (show (100 : Nat) < 256 by decide)⟩)

end FilmGrainNode
